import Mathlib

/-!
Shallow embedding of the CloudFlow UI window-manager core
(src/window-manager/core/window.cpp, window_manager.cpp, window.h,
window_manager.h, window_event.h), together with theorems settling the
specification claims about it.

Conventions of the embedding:
* C++ `int` fields are modelled as `Int` (no arithmetic in the source comes
  near the 32-bit boundary on the verified paths).
* Mutating member functions become pure functions from the receiver to an
  updated receiver, paired with the list of events the function hands to
  `notifyEventCallback` (which drops the event when no callback is
  installed) and with the C++ return value.
* The event timestamp (a global monotonic counter in
  `EventUtils::getCurrentTimestamp`) is omitted from the event record: no
  verified property mentions timestamps, and carrying the global counter
  would thread an otherwise unused piece of state through every operation.
* `float` opacity and `setOpacity` are omitted: floating point, and no
  claim refers to them.
-/

namespace CloudFlow.UI

/-- WindowState from window_manager.h. -/
inductive WindowState
  | Normal
  | Minimized
  | Maximized
  | Fullscreen
  | Hidden
deriving DecidableEq, Repr, Inhabited

/-- Ordinal of a WindowState, as produced by static_cast<int>. -/
def WindowState.toInt : WindowState → Int
  | .Normal => 0
  | .Minimized => 1
  | .Maximized => 2
  | .Fullscreen => 3
  | .Hidden => 4

/-- Inverse direction of static_cast<WindowState>(int) as consumed by the
switch in restoreWindowState: the four named non-Normal ordinals map to
their states and every other integer behaves like the default branch. -/
def WindowState.ofInt (n : Int) : WindowState :=
  if n = 1 then .Minimized
  else if n = 2 then .Maximized
  else if n = 3 then .Fullscreen
  else if n = 4 then .Hidden
  else .Normal

/-- WindowType from window_manager.h. -/
inductive WindowType
  | Normal
  | Dialog
  | Tooltip
  | Popup
  | Utility
deriving DecidableEq, Repr, Inhabited

/-- WindowGeometry from window_manager.h. -/
structure WindowGeometry where
  x : Int
  y : Int
  width : Int
  height : Int
  min_width : Int
  min_height : Int
  max_width : Int
  max_height : Int
deriving DecidableEq, Repr, Inhabited

/-- WindowEventType from window_event.h. -/
inductive WindowEventType
  | Created
  | Closing
  | Destroyed
  | FocusGained
  | FocusLost
  | Moved
  | Resized
  | Minimized
  | Maximized
  | Restored
  | StateChanged
  | MouseEnter
  | MouseLeave
  | MouseMove
  | MousePress
  | MouseRelease
  | MouseWheel
  | KeyPress
  | KeyRelease
  | CloseRequest
  | DragBegin
  | DragMove
  | DragEnd
deriving DecidableEq, Repr, Inhabited

/-- WindowEvent from window_event.h, restricted to the fields the
window-manager core reads or writes: the type tag, the addressed window id,
the geometry payload written by createWindowMovedEvent and
createWindowResizedEvent, and the generic integer payload written by
sendStateChangeEvent. Defaults mirror the zero-initialising default
constructor of the C++ struct. -/
structure WindowEvent where
  type : WindowEventType := .Created
  window_id : Int := -1
  window_x : Int := 0
  window_y : Int := 0
  window_width : Int := 0
  window_height : Int := 0
  window_old_x : Int := 0
  window_old_y : Int := 0
  window_old_width : Int := 0
  window_old_height : Int := 0
  data_int_value : Int := 0
deriving DecidableEq, Repr, Inhabited

namespace EventUtils

/-- EventUtils::createWindowMovedEvent from window_event.h. -/
def createWindowMovedEvent (window_id x y old_x old_y : Int) : WindowEvent :=
  { type := .Moved, window_id := window_id, window_x := x, window_y := y,
    window_old_x := old_x, window_old_y := old_y }

/-- EventUtils::createWindowResizedEvent from window_event.h. -/
def createWindowResizedEvent (window_id width height old_width old_height : Int) :
    WindowEvent :=
  { type := .Resized, window_id := window_id, window_width := width,
    window_height := height, window_old_width := old_width,
    window_old_height := old_height }

end EventUtils

/-- WindowImpl from window.cpp. `callback_set` models whether the
std::function member event_callback_ holds a callable (the only callback
ever installed is the manager's forwarding lambda, so the model records
just its presence). -/
structure WindowImpl where
  id : Int
  title : String
  geometry : WindowGeometry
  normal_geometry : WindowGeometry
  state : WindowState
  type : WindowType
  visible : Bool
  has_focus : Bool
  resizable : Bool
  movable : Bool
  always_on_top : Bool
  callback_set : Bool
deriving DecidableEq, Repr, Inhabited

/-- The WindowImpl member normal_geometry_ is declared without an
initializer and is not in the constructor's init list, so in C++ its
initial contents are indeterminate. The model fixes one arbitrary value
for it; no theorem below depends on this choice except by explicitly
exercising the source path that reads the member before any write. -/
def UNINIT_GEOMETRY : WindowGeometry :=
  { x := 0, y := 0, width := 0, height := 0, min_width := 0, min_height := 0,
    max_width := 0, max_height := 0 }

/-- WindowImpl::WindowImpl from window.cpp. The constructor throws
std::invalid_argument on a non-positive size or an empty title, modelled
as Except.error; otherwise it applies the category defaults of the switch
on `type`. -/
def WindowImpl.construct (id : Int) (title : String) (width height : Int)
    (type : WindowType) : Except String WindowImpl :=
  if width ≤ 0 ∨ height ≤ 0 then
    .error "window size must be positive"
  else if title = "" then
    .error "window title must not be empty"
  else
    let base : WindowImpl :=
      { id := id, title := title,
        geometry := { x := 0, y := 0, width := width, height := height,
                      min_width := 100, min_height := 100,
                      max_width := 4096, max_height := 4096 },
        normal_geometry := UNINIT_GEOMETRY,
        state := .Normal, type := type,
        visible := true, has_focus := false,
        resizable := true, movable := true, always_on_top := false,
        callback_set := false }
    .ok (match type with
      | .Dialog => { base with always_on_top := true, resizable := false }
      | .Tooltip => { base with
          always_on_top := true
          movable := false
          resizable := false }
      | .Popup => { base with always_on_top := true }
      | .Utility => { base with resizable := false }
      | .Normal => base)

/-- WindowImpl::notifyEventCallback: the event reaches the installed
callback only when one is installed. -/
def WindowImpl.notifyEvents (w : WindowImpl) (event : WindowEvent) :
    List WindowEvent :=
  if w.callback_set then [event] else []

/-- WindowImpl::sendStateChangeEvent builds a StateChanged event whose
generic integer payload carries the previous state's ordinal. -/
def WindowImpl.stateChangeEvent (w : WindowImpl) (old_state : WindowState) :
    WindowEvent :=
  { type := .StateChanged, window_id := w.id,
    data_int_value := old_state.toInt }

/-- Result of a mutating WindowImpl member function: the updated window,
the events handed to the callback, and the bool return value. -/
structure WinOut where
  w : WindowImpl
  events : List WindowEvent
  ret : Bool
deriving DecidableEq, Repr

/-- WindowImpl::setTitle from window.cpp. -/
def WindowImpl.setTitle (w : WindowImpl) (title : String) : WinOut :=
  if title = "" then
    ⟨w, [], false⟩
  else
    let w' := { w with title := title }
    ⟨w', w'.notifyEvents { type := .StateChanged, window_id := w.id }, true⟩

/-- WindowImpl::move from window.cpp. -/
def WindowImpl.move (w : WindowImpl) (x y : Int) : WinOut :=
  let old_x := w.geometry.x
  let old_y := w.geometry.y
  let w' := { w with geometry := { w.geometry with x := x, y := y } }
  ⟨w', w'.notifyEvents (EventUtils.createWindowMovedEvent w.id x y old_x old_y),
    true⟩

/-- WindowImpl::resize from window.cpp. -/
def WindowImpl.resize (w : WindowImpl) (width height : Int) : WinOut :=
  if width < w.geometry.min_width ∨ height < w.geometry.min_height then
    ⟨w, [], false⟩
  else if width > w.geometry.max_width ∨ height > w.geometry.max_height then
    ⟨w, [], false⟩
  else
    let old_width := w.geometry.width
    let old_height := w.geometry.height
    let w' := { w with geometry := { w.geometry with width := width, height := height } }
    ⟨w', w'.notifyEvents
        (EventUtils.createWindowResizedEvent w.id width height old_width old_height),
      true⟩

/-- WindowImpl::minimize from window.cpp. -/
def WindowImpl.minimize (w : WindowImpl) : WinOut :=
  if w.state = .Minimized then
    ⟨w, [], true⟩
  else
    let old_state := w.state
    let w' := { w with state := .Minimized, visible := false }
    ⟨w', w'.notifyEvents (w'.stateChangeEvent old_state), true⟩

/-- WindowImpl::maximize from window.cpp: the normal_geometry snapshot is
taken only when the previous state is Normal, and the maximized extent is
the hard-coded 1920 by 1080 at the origin. -/
def WindowImpl.maximize (w : WindowImpl) : WinOut :=
  if w.state = .Maximized then
    ⟨w, [], true⟩
  else
    let old_state := w.state
    let w1 := { w with state := WindowState.Maximized }
    let w2 := if old_state = .Normal then { w1 with normal_geometry := w1.geometry }
              else w1
    let w3 := { w2 with geometry :=
      { w2.geometry with width := 1920, height := 1080, x := 0, y := 0 } }
    ⟨w3, w3.notifyEvents (w3.stateChangeEvent old_state), true⟩

/-- WindowImpl::restore from window.cpp: geometry is reassigned from
normal_geometry only when leaving Maximized or Fullscreen. -/
def WindowImpl.restore (w : WindowImpl) : WinOut :=
  if w.state = .Normal then
    ⟨w, [], true⟩
  else
    let old_state := w.state
    let w1 := { w with state := WindowState.Normal, visible := true }
    let w2 := if old_state = .Maximized ∨ old_state = .Fullscreen then
                { w1 with geometry := w1.normal_geometry }
              else w1
    ⟨w2, w2.notifyEvents (w2.stateChangeEvent old_state), true⟩

/-- WindowImpl::setFullscreen from window.cpp. -/
def WindowImpl.setFullscreen (w : WindowImpl) (fullscreen : Bool) : WinOut :=
  if fullscreen = true ∧ w.state = .Fullscreen then
    ⟨w, [], true⟩
  else if fullscreen = false ∧ w.state ≠ .Fullscreen then
    ⟨w, [], true⟩
  else
    let old_state := w.state
    let w' :=
      if fullscreen then
        let w1 := { w with
          state := WindowState.Fullscreen
          normal_geometry := w.geometry }
        { w1 with geometry :=
          { w1.geometry with width := 1920, height := 1080, x := 0, y := 0 } }
      else
        { w with state := WindowState.Normal, geometry := w.normal_geometry }
    ⟨w', w'.notifyEvents (w'.stateChangeEvent old_state), true⟩

/-- WindowImpl::show from window.cpp. -/
def WindowImpl.show (w : WindowImpl) : WinOut :=
  if w.visible then
    ⟨w, [], true⟩
  else
    let w' := { w with visible := true }
    ⟨w', w'.notifyEvents { type := .StateChanged, window_id := w.id }, true⟩

/-- WindowImpl::hide from window.cpp. -/
def WindowImpl.hide (w : WindowImpl) : WinOut :=
  if w.visible = false then
    ⟨w, [], true⟩
  else
    let w' := { w with visible := false }
    ⟨w', w'.notifyEvents { type := .StateChanged, window_id := w.id }, true⟩

/-- WindowImpl::close from window.cpp: emits CloseRequest, mutates nothing. -/
def WindowImpl.close (w : WindowImpl) : WinOut :=
  ⟨w, w.notifyEvents { type := .CloseRequest, window_id := w.id }, true⟩

/-- WindowImpl::setEventCallback: installs the (manager-forwarding)
callback. -/
def WindowImpl.setEventCallback (w : WindowImpl) : WindowImpl :=
  { w with callback_set := true }

/-- WindowImpl::handleEvent from window.cpp: flips has_focus on
FocusGained and FocusLost, then forwards the event to the callback. -/
def WindowImpl.handleEvent (w : WindowImpl) (event : WindowEvent) :
    WindowImpl × List WindowEvent :=
  let w' := match event.type with
    | .FocusGained => { w with has_focus := true }
    | .FocusLost => { w with has_focus := false }
    | _ => w
  (w', w'.notifyEvents event)

/-- WindowImpl::setResizable from window.cpp. -/
def WindowImpl.setResizable (w : WindowImpl) (resizable : Bool) :
    WindowImpl × Bool :=
  ({ w with resizable := resizable }, true)

/-- WindowImpl::setMovable from window.cpp. -/
def WindowImpl.setMovable (w : WindowImpl) (movable : Bool) :
    WindowImpl × Bool :=
  ({ w with movable := movable }, true)

/-- WindowImpl::setAlwaysOnTop from window.cpp. -/
def WindowImpl.setAlwaysOnTop (w : WindowImpl) (always_on_top : Bool) :
    WindowImpl × Bool :=
  ({ w with always_on_top := always_on_top }, true)

/-- WindowImpl::setMinimumSize from window.cpp: stores the new minima and
clamps the current size up to them, without checking them against the
maxima. -/
def WindowImpl.setMinimumSize (w : WindowImpl) (min_width min_height : Int) :
    WindowImpl × Bool :=
  if min_width ≤ 0 ∨ min_height ≤ 0 then
    (w, false)
  else
    let g0 := { w.geometry with min_width := min_width, min_height := min_height }
    let g1 := if g0.width < min_width then { g0 with width := min_width } else g0
    let g2 := if g1.height < min_height then { g1 with height := min_height } else g1
    ({ w with geometry := g2 }, true)

/-- WindowImpl::setMaximumSize from window.cpp. -/
def WindowImpl.setMaximumSize (w : WindowImpl) (max_width max_height : Int) :
    WindowImpl × Bool :=
  if max_width ≤ 0 ∨ max_height ≤ 0 then
    (w, false)
  else
    let g0 := { w.geometry with max_width := max_width, max_height := max_height }
    let g1 := if g0.width > max_width then { g0 with width := max_width } else g0
    let g2 := if g1.height > max_height then { g1 with height := max_height } else g1
    ({ w with geometry := g2 }, true)

/-- WindowImpl::setFocus from window.cpp: when not already focused it only
emits FocusGained; it does not write has_focus itself. -/
def WindowImpl.setFocus (w : WindowImpl) : WinOut :=
  if w.has_focus then
    ⟨w, [], true⟩
  else
    ⟨w, w.notifyEvents { type := .FocusGained, window_id := w.id }, true⟩

/-! ## WindowManager::Impl (window_manager.cpp)

The std::unordered_map member windows_ is modelled as an association list;
`begin()` is the head of the list. Which element an unordered_map's
begin() yields is unspecified in C++, so theorems below only use
properties that hold for an arbitrary remaining element (membership,
key distinctness), never the identity of the chosen one. -/

/-- windows_.find(id), yielding the mapped window. -/
def findWindow (ws : List (Int × WindowImpl)) (id : Int) : Option WindowImpl :=
  (ws.find? (fun p => p.1 == id)).map (fun p => p.2)

/-- windows_.erase of every entry with the given key. -/
def eraseWindow (ws : List (Int × WindowImpl)) (id : Int) :
    List (Int × WindowImpl) :=
  ws.filter (fun p => p.1 != id)

/-- windows_[id] = w: replaces the mapped value when the key is present,
otherwise adds a new entry. -/
def insertWindow (ws : List (Int × WindowImpl)) (id : Int) (w : WindowImpl) :
    List (Int × WindowImpl) :=
  if ws.any (fun p => p.1 == id) then
    ws.map (fun p => if p.1 == id then (p.1, w) else p)
  else
    ws ++ [(id, w)]

/-- In-place mutation of the window stored under a key (it->second->op()). -/
def updateWindow (ws : List (Int × WindowImpl)) (id : Int) (w : WindowImpl) :
    List (Int × WindowImpl) :=
  ws.map (fun p => if p.1 == id then (p.1, w) else p)

/-- WindowManager::Impl state. `callback_set` models whether the
std::function member event_callback_ holds the host-shell sink. -/
structure WindowManager where
  windows : List (Int × WindowImpl)
  next_window_id : Int
  focused_window_id : Int
  callback_set : Bool
deriving DecidableEq, Repr, Inhabited

/-- WindowManager::Impl::Impl(): next id 1, no focus, no sink. -/
def WindowManager.init : WindowManager :=
  { windows := [], next_window_id := 1, focused_window_id := -1,
    callback_set := false }

/-- WindowManager::Impl::notifyEventCallback. -/
def WindowManager.notify (m : WindowManager) (event : WindowEvent) :
    List WindowEvent :=
  if m.callback_set then [event] else []

/-- Forwarding of window-emitted events through
WindowManager::Impl::handleWindowEvent to the sink. -/
def WindowManager.fwd (m : WindowManager) (events : List WindowEvent) :
    List WindowEvent :=
  if m.callback_set then events else []

/-- Result of a WindowManager operation: the new state, the events
delivered to the registered sink, in order, and the return value. -/
structure MgrOut (α : Type) where
  state : WindowManager
  events : List WindowEvent
  ret : α
deriving DecidableEq, Repr

/-- WindowManager::Impl::setFocus from window_manager.cpp. Note the order
of the checks: the already-focused early return precedes the existence
lookup, and the FocusLost event for the previous holder is emitted to the
sink (not routed into any window) strictly before FocusGained. -/
def WindowManager.setFocus (m : WindowManager) (window_id : Int) : MgrOut Bool :=
  if window_id = m.focused_window_id then
    ⟨m, [], true⟩
  else
    match findWindow m.windows window_id with
    | none => ⟨m, [], false⟩
    | some _ =>
      let lost :=
        if m.focused_window_id ≠ -1 ∧
            (findWindow m.windows m.focused_window_id).isSome then
          m.notify { type := .FocusLost, window_id := m.focused_window_id }
        else []
      let m' := { m with focused_window_id := window_id }
      ⟨m', lost ++ m'.notify { type := .FocusGained, window_id := window_id },
        true⟩

/-- WindowManager::Impl::createWindow from window_manager.cpp. Validation
failures (and any exception from the Window constructor) are caught and
reported as the sentinel identity -1; the identity counter is incremented
only after validation passes. -/
def WindowManager.createWindow (m : WindowManager) (title : String)
    (width height : Int) (type : WindowType) : MgrOut Int :=
  if width ≤ 0 ∨ height ≤ 0 then
    ⟨m, [], -1⟩
  else if title = "" then
    ⟨m, [], -1⟩
  else
    let window_id := m.next_window_id
    let m1 := { m with next_window_id := m.next_window_id + 1 }
    match WindowImpl.construct window_id title width height type with
    | .error _ => ⟨m1, [], -1⟩
    | .ok w0 =>
      let w := w0.setEventCallback
      let m2 := { m1 with windows := insertWindow m1.windows window_id w }
      let sf := m2.setFocus window_id
      ⟨sf.state,
        sf.events ++ sf.state.notify { type := .Created, window_id := window_id },
        window_id⟩

/-- WindowManager::Impl::setFocusToNextWindow from window_manager.cpp:
picks windows_.begin() (modelled as the list head) as the new focus. -/
def WindowManager.setFocusToNextWindow (m : WindowManager) :
    WindowManager × List WindowEvent :=
  match m.windows with
  | [] => ({ m with focused_window_id := -1 }, [])
  | (id, _) :: _ =>
    let m' := { m with focused_window_id := id }
    (m', m'.notify { type := .FocusGained, window_id := id })

/-- WindowManager::Impl::closeWindow from window_manager.cpp. -/
def WindowManager.closeWindow (m : WindowManager) (window_id : Int) :
    MgrOut Bool :=
  match findWindow m.windows window_id with
  | none => ⟨m, [], false⟩
  | some _ =>
    let closing := m.notify { type := .Closing, window_id := window_id }
    let m1 := { m with windows := eraseWindow m.windows window_id }
    let next :=
      if m1.focused_window_id = window_id then m1.setFocusToNextWindow
      else (m1, [])
    let destroyed := next.1.notify { type := .Destroyed, window_id := window_id }
    ⟨next.1, closing ++ next.2 ++ destroyed, true⟩

/-- WindowManager::Impl::minimizeWindow from window_manager.cpp. -/
def WindowManager.minimizeWindow (m : WindowManager) (window_id : Int) :
    MgrOut Bool :=
  match findWindow m.windows window_id with
  | none => ⟨m, [], false⟩
  | some w =>
    let r := w.minimize
    ⟨{ m with windows := updateWindow m.windows window_id r.w },
      m.fwd r.events, r.ret⟩

/-- WindowManager::Impl::maximizeWindow from window_manager.cpp. -/
def WindowManager.maximizeWindow (m : WindowManager) (window_id : Int) :
    MgrOut Bool :=
  match findWindow m.windows window_id with
  | none => ⟨m, [], false⟩
  | some w =>
    let r := w.maximize
    ⟨{ m with windows := updateWindow m.windows window_id r.w },
      m.fwd r.events, r.ret⟩

/-- WindowManager::Impl::restoreWindow from window_manager.cpp. -/
def WindowManager.restoreWindow (m : WindowManager) (window_id : Int) :
    MgrOut Bool :=
  match findWindow m.windows window_id with
  | none => ⟨m, [], false⟩
  | some w =>
    let r := w.restore
    ⟨{ m with windows := updateWindow m.windows window_id r.w },
      m.fwd r.events, r.ret⟩

/-- WindowManager::Impl::moveWindow from window_manager.cpp. -/
def WindowManager.moveWindow (m : WindowManager) (window_id x y : Int) :
    MgrOut Bool :=
  match findWindow m.windows window_id with
  | none => ⟨m, [], false⟩
  | some w =>
    let r := w.move x y
    ⟨{ m with windows := updateWindow m.windows window_id r.w },
      m.fwd r.events, r.ret⟩

/-- WindowManager::Impl::resizeWindow from window_manager.cpp. -/
def WindowManager.resizeWindow (m : WindowManager) (window_id width height : Int) :
    MgrOut Bool :=
  match findWindow m.windows window_id with
  | none => ⟨m, [], false⟩
  | some w =>
    let r := w.resize width height
    ⟨{ m with windows := updateWindow m.windows window_id r.w },
      m.fwd r.events, r.ret⟩

/-- WindowManager::Impl::getWindowCount. -/
def WindowManager.getWindowCount (m : WindowManager) : Nat :=
  m.windows.length

/-- WindowManager::Impl::getFocusedWindow. -/
def WindowManager.getFocusedWindow (m : WindowManager) : Int :=
  m.focused_window_id

/-- WindowManager::Impl::getWindowIds. -/
def WindowManager.getWindowIds (m : WindowManager) : List Int :=
  m.windows.map (fun p => p.1)

/-- WindowManager::Impl::getWindowGeometry: zero geometry for unknown ids. -/
def WindowManager.getWindowGeometry (m : WindowManager) (window_id : Int) :
    WindowGeometry :=
  match findWindow m.windows window_id with
  | none => { x := 0, y := 0, width := 0, height := 0, min_width := 0,
              min_height := 0, max_width := 0, max_height := 0 }
  | some w => w.geometry

/-- WindowManager::Impl::setEventCallback: registers the host-shell sink. -/
def WindowManager.setEventCallback (m : WindowManager) : WindowManager :=
  { m with callback_set := true }

/-- WindowManager::Impl::handleEvent from window_manager.cpp: routes the
event to the addressed window when it exists, silently drops it
otherwise. -/
def WindowManager.handleEvent (m : WindowManager) (event : WindowEvent) :
    WindowManager × List WindowEvent :=
  match findWindow m.windows event.window_id with
  | none => (m, [])
  | some w =>
    let r := w.handleEvent event
    ({ m with windows := updateWindow m.windows event.window_id r.1 },
      m.fwd r.2)

/-! ## Persistence (saveWindowState / restoreWindowState)

The persisted layout document is modelled structurally as a JSON value.
`restoreWindowState` takes `Option Json`: `none` models a file that could
not be opened or whose contents fail to parse (both make the function
return false before any state is touched; a parse failure throws from
`file >> root` inside the try block). The jsoncpp accessor semantics used
by the source are reproduced: `operator[]` on a missing member of an
object (or on null) yields null and on any other kind throws; `asInt` maps
null to 0, keeps numbers, and throws on strings, arrays and objects;
`asString` maps null to the empty string, keeps strings, converts numbers,
and throws on arrays and objects; range-for over a non-array non-object
value iterates zero times. -/

/-- Structural model of a parsed Json::Value. -/
inductive Json
  | null
  | num (n : Int)
  | str (s : String)
  | arr (elems : List Json)
  | obj (members : List (String × Json))
deriving Inhabited

/-- root[key] for reading: null for a missing member, error for a kind on
which jsoncpp operator[] throws. -/
def Json.get (j : Json) (key : String) : Except Unit Json :=
  match j with
  | .obj members =>
    .ok (((members.find? (fun p => p.1 == key)).map (fun p => p.2)).getD .null)
  | .null => .ok .null
  | _ => .error ()

/-- Json::Value::asInt. -/
def Json.asInt : Json → Except Unit Int
  | .null => .ok 0
  | .num n => .ok n
  | _ => .error ()

/-- Json::Value::asString. -/
def Json.asString : Json → Except Unit String
  | .null => .ok ""
  | .str s => .ok s
  | .num n => .ok (toString n)
  | _ => .error ()

/-- Range-for over a Json::Value: array elements, object member values,
nothing otherwise. -/
def Json.iterElems : Json → List Json
  | .arr elems => elems
  | .obj members => members.map (fun p => p.2)
  | _ => []

/-- One window object as written by saveWindowState. -/
def saveWindowObj (id : Int) (w : WindowImpl) : Json :=
  .obj [("id", .num id), ("title", .str w.title),
        ("x", .num w.geometry.x), ("y", .num w.geometry.y),
        ("width", .num w.geometry.width), ("height", .num w.geometry.height),
        ("state", .num w.state.toInt)]

/-- WindowManager::Impl::saveWindowState from window_manager.cpp: the
document it writes (the bool result only reports file-open failure, which
is outside the model). -/
def WindowManager.saveWindowState (m : WindowManager) : Json :=
  .obj [("windows", .arr (m.windows.map (fun p => saveWindowObj p.1 p.2))),
        ("focused_window", .num m.focused_window_id)]

/-- The seven field reads of one loop iteration of restoreWindowState, in
source order; all of them precede any mutation inside the iteration. -/
structure ParsedRecord where
  id : Int
  title : String
  x : Int
  y : Int
  width : Int
  height : Int
  stateInt : Int
deriving DecidableEq, Repr

/-- Field extraction for one window object of the persisted document. -/
def parseWindowObj (window_obj : Json) : Except Unit ParsedRecord := do
  let id ← (← window_obj.get "id").asInt
  let title ← (← window_obj.get "title").asString
  let x ← (← window_obj.get "x").asInt
  let y ← (← window_obj.get "y").asInt
  let width ← (← window_obj.get "width").asInt
  let height ← (← window_obj.get "height").asInt
  let stateInt ← (← window_obj.get "state").asInt
  .ok ⟨id, title, x, y, width, height, stateInt⟩

/-- One loop iteration of restoreWindowState: reconstruct the window
(category always Normal, no event callback installed), replay move and
the saved state transition, insert it, and raise the identity counter. A
thrown exception (bad field kind or a constructor failure) aborts the
whole loop with the state accumulated so far, which the error carries. -/
def restoreOne (mcur : WindowManager) (window_obj : Json) :
    Except WindowManager WindowManager :=
  match parseWindowObj window_obj with
  | .error _ => .error mcur
  | .ok r =>
    match WindowImpl.construct r.id r.title r.width r.height .Normal with
    | .error _ => .error mcur
    | .ok w0 =>
      let w1 := (w0.move r.x r.y).w
      let w2 := match WindowState.ofInt r.stateInt with
        | .Minimized => w1.minimize.w
        | .Maximized => w1.maximize.w
        | .Fullscreen => (w1.setFullscreen true).w
        | _ => w1
      .ok { mcur with
        windows := insertWindow mcur.windows r.id w2
        next_window_id := max mcur.next_window_id (r.id + 1) }

/-- The restore loop: stops at the first thrown exception, carrying the
partial state. -/
def restoreLoop (mcur : WindowManager) :
    List Json → Except WindowManager WindowManager
  | [] => .ok mcur
  | window_obj :: rest =>
    match restoreOne mcur window_obj with
    | .error e => .error e
    | .ok m' => restoreLoop m' rest

/-- WindowManager::Impl::restoreWindowState from window_manager.cpp. Note
the order of effects inside the try block: the parse happens first (so a
malformed file leaves the state untouched), but windows_.clear() runs
before any field of the document is validated, so later failures — and
the success path of a document missing its fields — act on an
already-cleared collection. -/
def WindowManager.restoreWindowState (m : WindowManager) (file : Option Json) :
    WindowManager × Bool :=
  match file with
  | none => (m, false)
  | some root =>
    let m0 := { m with windows := [] }
    match root.get "windows" with
    | .error _ => (m0, false)
    | .ok windows_array =>
      match restoreLoop m0 windows_array.iterElems with
      | .error mpart => (mpart, false)
      | .ok m1 =>
        match (root.get "focused_window").bind Json.asInt with
        | .error _ => (m1, false)
        | .ok fid => ({ m1 with focused_window_id := fid }, true)

/-! ## Reachability

Reachable manager states: everything obtainable from a fresh manager by
the public WindowManager operations other than restoreWindowState (whose
behaviour on untrusted documents is settled separately). -/

/-- One public WindowManager call, with its arguments. -/
inductive MgrOp
  | create (title : String) (width height : Int) (type : WindowType)
  | close (id : Int)
  | focus (id : Int)
  | minimizeW (id : Int)
  | maximizeW (id : Int)
  | restoreW (id : Int)
  | moveW (id x y : Int)
  | resizeW (id width height : Int)
  | handle (event : WindowEvent)
  | setCallback

/-- State effect of one public call. -/
def WindowManager.applyOp (m : WindowManager) : MgrOp → WindowManager
  | .create title width height type => (m.createWindow title width height type).state
  | .close id => (m.closeWindow id).state
  | .focus id => (m.setFocus id).state
  | .minimizeW id => (m.minimizeWindow id).state
  | .maximizeW id => (m.maximizeWindow id).state
  | .restoreW id => (m.restoreWindow id).state
  | .moveW id x y => (m.moveWindow id x y).state
  | .resizeW id width height => (m.resizeWindow id width height).state
  | .handle event => (m.handleEvent event).1
  | .setCallback => m.setEventCallback

/-- Manager states reachable from a fresh manager. -/
inductive Reachable : WindowManager → Prop
  | base : Reachable WindowManager.init
  | step (m : WindowManager) (op : MgrOp) :
      Reachable m → Reachable (m.applyOp op)

/-! ## Association-list facts about the windows_ map -/

theorem findWindow_cons_pos (p : Int × WindowImpl) (t : List (Int × WindowImpl))
    (id : Int) (h : p.1 = id) : findWindow (p :: t) id = some p.2 := by
  unfold findWindow
  rw [List.find?_cons_of_pos _ (by simp [h])]
  rfl

theorem findWindow_cons_neg (p : Int × WindowImpl) (t : List (Int × WindowImpl))
    (id : Int) (h : p.1 ≠ id) : findWindow (p :: t) id = findWindow t id := by
  unfold findWindow
  rw [List.find?_cons_of_neg _ (by simp [h])]

theorem findWindow_head (k : Int) (v : WindowImpl) (t : List (Int × WindowImpl)) :
    findWindow ((k, v) :: t) k = some v :=
  findWindow_cons_pos (k, v) t k rfl

theorem findWindow_writeback (ws : List (Int × WindowImpl)) (id : Int)
    (w : WindowImpl) (h : ws.any (fun p => p.1 == id) = true) :
    findWindow (ws.map (fun p => if p.1 == id then (p.1, w) else p)) id = some w := by
  induction ws with
  | nil => simp at h
  | cons p t ih =>
    by_cases hk : p.1 = id
    · rw [List.map_cons, if_pos (by simp [hk]),
        findWindow_cons_pos (p.1, w) _ _ hk]
    · have ht : t.any (fun p => p.1 == id) = true := by
        simp only [List.any_cons, Bool.or_eq_true] at h
        rcases h with hc | hc
        · exact absurd (by simpa using hc) hk
        · exact hc
      rw [List.map_cons, if_neg (by simp [hk]), findWindow_cons_neg _ _ _ hk]
      exact ih ht

theorem findWindow_insertWindow_self (ws : List (Int × WindowImpl)) (id : Int)
    (w : WindowImpl) : findWindow (insertWindow ws id w) id = some w := by
  unfold insertWindow
  split
  · exact findWindow_writeback ws id w (by assumption)
  · rename_i hany
    have hnone : ws.find? (fun p => p.1 == id) = none := by
      rw [List.find?_eq_none]
      intro x hx hpx
      exact hany (List.any_eq_true.mpr ⟨x, hx, hpx⟩)
    simp [findWindow, List.find?_append, hnone, List.find?_cons_of_pos]

theorem findWindow_eraseWindow_ne (ws : List (Int × WindowImpl)) (id id' : Int)
    (h : id' ≠ id) : findWindow (eraseWindow ws id) id' = findWindow ws id' := by
  induction ws with
  | nil => rfl
  | cons p t ih =>
    by_cases hk : p.1 = id
    · have h1 : eraseWindow (p :: t) id = eraseWindow t id := by
        simp [eraseWindow, List.filter_cons, hk]
      have h2 : p.1 ≠ id' := fun hc => h (hc ▸ hk.symm ▸ rfl)
      rw [h1, findWindow_cons_neg _ _ _ (by rw [hk]; exact fun hc => h hc.symm)]
      exact ih
    · have h1 : eraseWindow (p :: t) id = p :: eraseWindow t id := by
        simp [eraseWindow, List.filter_cons, hk]
      rw [h1]
      by_cases hq : p.1 = id'
      · rw [findWindow_cons_pos _ _ _ hq, findWindow_cons_pos _ _ _ hq]
      · rw [findWindow_cons_neg _ _ _ hq, findWindow_cons_neg _ _ _ hq]
        exact ih

theorem findWindow_updateWindow_isSome (ws : List (Int × WindowImpl))
    (id id' : Int) (w : WindowImpl) :
    (findWindow (updateWindow ws id w) id').isSome =
      (findWindow ws id').isSome := by
  induction ws with
  | nil => rfl
  | cons p t ih =>
    by_cases hk : p.1 = id
    · have h1 : updateWindow (p :: t) id w = (p.1, w) :: updateWindow t id w := by
        simp [updateWindow, List.map_cons, hk]
      rw [h1]
      by_cases hq : p.1 = id'
      · rw [findWindow_cons_pos (p.1, w) _ _ hq, findWindow_cons_pos _ _ _ hq]
        rfl
      · rw [findWindow_cons_neg (p.1, w) _ _ hq, findWindow_cons_neg _ _ _ hq]
        exact ih
    · have h1 : updateWindow (p :: t) id w = p :: updateWindow t id w := by
        simp [updateWindow, List.map_cons, hk]
      rw [h1]
      by_cases hq : p.1 = id'
      · rw [findWindow_cons_pos _ _ _ hq, findWindow_cons_pos _ _ _ hq]
      · rw [findWindow_cons_neg _ _ _ hq, findWindow_cons_neg _ _ _ hq]
        exact ih

theorem setFocus_state_windows (m : WindowManager) (id : Int) :
    (m.setFocus id).state.windows = m.windows := by
  unfold WindowManager.setFocus
  split
  · rfl
  · split <;> rfl

/-! ## The focus half-invariant that the code does maintain -/

/-- focused_window_id is the -1 sentinel or names a live window. -/
def FocusInv (m : WindowManager) : Prop :=
  m.focused_window_id = -1 ∨
    (findWindow m.windows m.focused_window_id).isSome = true

theorem focusInv_setFocus_found (m : WindowManager) (id : Int)
    (hfind : (findWindow m.windows id).isSome = true) :
    FocusInv (m.setFocus id).state := by
  unfold WindowManager.setFocus FocusInv
  split
  · rename_i heq
    right
    rw [← heq]
    exact hfind
  · split
    · rename_i hnone
      rw [hnone] at hfind
      simp at hfind
    · right
      exact hfind

theorem focusInv_setFocusOp (m : WindowManager) (id : Int) (h : FocusInv m) :
    FocusInv (m.setFocus id).state := by
  unfold WindowManager.setFocus
  split
  · exact h
  · split
    · exact h
    · rename_i w hw
      right
      dsimp only
      simp [hw]

theorem closeWindow_state (m : WindowManager) (id : Int) :
    (m.closeWindow id).state =
      (match findWindow m.windows id with
      | none => m
      | some _ =>
        let m1 : WindowManager := { m with windows := eraseWindow m.windows id }
        if m1.focused_window_id = id then m1.setFocusToNextWindow.1 else m1) := by
  unfold WindowManager.closeWindow
  split
  · rfl
  · dsimp only
    split <;> rfl

theorem focusInv_closeWindow (m : WindowManager) (id : Int) (h : FocusInv m) :
    FocusInv (m.closeWindow id).state := by
  rw [closeWindow_state]
  split
  · exact h
  · rename_i w hw
    dsimp only
    by_cases hf : m.focused_window_id = id
    · rw [if_pos hf]
      unfold WindowManager.setFocusToNextWindow
      split
      · left
        rfl
      · rename_i k v t heq
        right
        dsimp only
        rw [show eraseWindow m.windows id = (k, v) :: t from heq,
          findWindow_head]
        rfl
    · rw [if_neg hf]
      rcases h with h | h
      · left
        exact h
      · right
        dsimp only
        rw [findWindow_eraseWindow_ne _ _ _ hf]
        exact h

theorem focusInv_createWindow (m : WindowManager) (title : String)
    (width height : Int) (type : WindowType) (h : FocusInv m) :
    FocusInv (m.createWindow title width height type).state := by
  unfold WindowManager.createWindow
  split
  · exact h
  · split
    · exact h
    · dsimp only
      split
      · exact h
      · dsimp only
        exact focusInv_setFocus_found _ _ (by simp [findWindow_insertWindow_self])

theorem focusInv_minimizeWindow (m : WindowManager) (id : Int) (h : FocusInv m) :
    FocusInv (m.minimizeWindow id).state := by
  unfold WindowManager.minimizeWindow
  split
  · exact h
  · rcases h with h | h
    · left
      exact h
    · right
      dsimp only
      rw [findWindow_updateWindow_isSome]
      exact h

theorem focusInv_maximizeWindow (m : WindowManager) (id : Int) (h : FocusInv m) :
    FocusInv (m.maximizeWindow id).state := by
  unfold WindowManager.maximizeWindow
  split
  · exact h
  · rcases h with h | h
    · left
      exact h
    · right
      dsimp only
      rw [findWindow_updateWindow_isSome]
      exact h

theorem focusInv_restoreWindow (m : WindowManager) (id : Int) (h : FocusInv m) :
    FocusInv (m.restoreWindow id).state := by
  unfold WindowManager.restoreWindow
  split
  · exact h
  · rcases h with h | h
    · left
      exact h
    · right
      dsimp only
      rw [findWindow_updateWindow_isSome]
      exact h

theorem focusInv_moveWindow (m : WindowManager) (id x y : Int) (h : FocusInv m) :
    FocusInv (m.moveWindow id x y).state := by
  unfold WindowManager.moveWindow
  split
  · exact h
  · rcases h with h | h
    · left
      exact h
    · right
      dsimp only
      rw [findWindow_updateWindow_isSome]
      exact h

theorem focusInv_resizeWindow (m : WindowManager) (id width height : Int)
    (h : FocusInv m) : FocusInv (m.resizeWindow id width height).state := by
  unfold WindowManager.resizeWindow
  split
  · exact h
  · rcases h with h | h
    · left
      exact h
    · right
      dsimp only
      rw [findWindow_updateWindow_isSome]
      exact h

theorem focusInv_handleEvent (m : WindowManager) (event : WindowEvent)
    (h : FocusInv m) : FocusInv (m.handleEvent event).1 := by
  unfold WindowManager.handleEvent
  split
  · exact h
  · rcases h with h | h
    · left
      exact h
    · right
      dsimp only
      rw [findWindow_updateWindow_isSome]
      exact h

theorem focusInv_applyOp (m : WindowManager) (op : MgrOp) (h : FocusInv m) :
    FocusInv (m.applyOp op) := by
  cases op with
  | create title width height type => exact focusInv_createWindow m title width height type h
  | close id => exact focusInv_closeWindow m id h
  | focus id => exact focusInv_setFocusOp m id h
  | minimizeW id => exact focusInv_minimizeWindow m id h
  | maximizeW id => exact focusInv_maximizeWindow m id h
  | restoreW id => exact focusInv_restoreWindow m id h
  | moveW id x y => exact focusInv_moveWindow m id x y h
  | resizeW id width height => exact focusInv_resizeWindow m id width height h
  | handle event => exact focusInv_handleEvent m event h
  | setCallback => exact h

/-! ## Shared concrete fixtures used by witnesses and counterexamples -/

/-- A manager with a registered sink holding window 1 (title A, 200 by 200)
and window 2 (title B, 300 by 300), focus on 2 — the state produced by
registering a callback and creating the two windows. -/
def sampleManager : WindowManager :=
  ((WindowManager.init.setEventCallback.createWindow "A" 200 200
      WindowType.Normal).state.createWindow "B" 300 300 WindowType.Normal).state

/-- A plain Normal-category window as built by the Window constructor for
id 1, title A, 800 by 600. -/
def sampleWindow : WindowImpl :=
  { id := 1, title := "A",
    geometry := { x := 0, y := 0, width := 800, height := 600,
                  min_width := 100, min_height := 100,
                  max_width := 4096, max_height := 4096 },
    normal_geometry := UNINIT_GEOMETRY,
    state := WindowState.Normal, type := WindowType.Normal,
    visible := true, has_focus := false,
    resizable := true, movable := true, always_on_top := false,
    callback_set := false }

/-! ## Claim C1 -/

/-- C1, counterexample: the manager never writes any window's has_focus
field. In the two-window sampleManager (focus on 2), setFocus 1 succeeds
and sets focused_window_id to 1, yet window 1 still has has_focus =
false (so no window carries has_focus = true, contradicting the claim
that the has_focus = true window is exactly the focused one, and
contradicting that after a successful setFocus the target has has_focus
= true). Moreover, routing two FocusGained events through
WindowManager::handleEvent marks both windows has_focus = true at once
while focused_window_id still names window 2. -/
theorem setFocus_does_not_set_has_focus_cex :
    (sampleManager.setFocus 1).ret = true ∧
    (sampleManager.setFocus 1).state.focused_window_id = 1 ∧
    (findWindow (sampleManager.setFocus 1).state.windows 1).map
      WindowImpl.has_focus = some false ∧
    (findWindow (sampleManager.setFocus 1).state.windows 2).map
      WindowImpl.has_focus = some false ∧
    (let m2 := ((sampleManager.handleEvent
        { type := WindowEventType.FocusGained, window_id := 1 }).1.handleEvent
        { type := WindowEventType.FocusGained, window_id := 2 }).1
     (findWindow m2.windows 1).map WindowImpl.has_focus = some true ∧
     (findWindow m2.windows 2).map WindowImpl.has_focus = some true ∧
     m2.focused_window_id = 2) := by
  decide

/-- C1, amended: in every state reachable from a fresh manager through the
public operations createWindow, closeWindow, setFocus, minimizeWindow,
maximizeWindow, restoreWindow, moveWindow, resizeWindow, handleEvent and
setEventCallback, focused_window_id, when it is not the -1 sentinel,
names a currently-live window. The has_focus half of the claim fails (see
the counterexample): no manager operation writes any window's has_focus,
so the focused window's flag stays false unless the host feeds focus
events back through handleEvent, and handleEvent can mark several windows
focused at once. -/
theorem reachable_focused_identity_live (m : WindowManager)
    (h : Reachable m) :
    m.focused_window_id = -1 ∨
      (findWindow m.windows m.focused_window_id).isSome = true := by
  induction h with
  | base =>
    left
    rfl
  | step m' op hr ih => exact focusInv_applyOp m' op ih

/-- C1 witness: the invariant instantiated at a concrete reachable state. -/
theorem reachable_focused_identity_live_witness :
    WindowManager.init.focused_window_id = -1 ∨
      (findWindow WindowManager.init.windows
        WindowManager.init.focused_window_id).isSome = true :=
  reachable_focused_identity_live WindowManager.init Reachable.base

/-! ## Claim C2 -/

/-- C2: the code at the failing input. A manager holding one window
restores from the parsed document that is an empty JSON object — valid
JSON missing every required field. The claim requires failure with the
live state unchanged; the code instead returns success with the window
collection cleared and focused_window_id overwritten with 0 (the missing
members read as null, the null windows member iterates zero times, and
asInt of null is 0). Only a file that fails to parse (modelled as none)
behaves as the claim demands: failure with the state untouched. -/
theorem restore_missing_fields_clears_cex :
    ((WindowManager.init.createWindow "A" 100 100
        WindowType.Normal).state.windows.length = 1) ∧
    (let m := (WindowManager.init.createWindow "A" 100 100
        WindowType.Normal).state
     let r := m.restoreWindowState (some (Json.obj []))
     r.2 = true ∧ r.1.windows = [] ∧ r.1.focused_window_id = 0) ∧
    (let m := (WindowManager.init.createWindow "A" 100 100
        WindowType.Normal).state
     m.restoreWindowState none = (m, false)) := by
  decide

/-! ## Claim C3 -/

/-- C3, counterexample: restoreWindowState constructs its windows without
ever calling setEventCallback on them, so a restored window's events
never reach the sink. Restoring a one-window document into a manager
whose sink is registered, then moving that window, succeeds but delivers
no event at all. -/
theorem restored_window_events_dropped_cex :
    (let doc := Json.obj [("windows", Json.arr [Json.obj
        [("id", Json.num 1), ("title", Json.str "A"), ("x", Json.num 0),
         ("y", Json.num 0), ("width", Json.num 200), ("height", Json.num 200),
         ("state", Json.num 0)]]), ("focused_window", Json.num 1)]
     let r := WindowManager.init.setEventCallback.restoreWindowState (some doc)
     r.2 = true ∧ r.1.callback_set = true ∧
     (findWindow r.1.windows 1).map WindowImpl.callback_set = some false ∧
     (r.1.moveWindow 1 5 5).ret = true ∧
     (r.1.moveWindow 1 5 5).events = []) := by
  decide

/-- C3, amended: event delivery holds exactly for windows whose callback
is installed, which are the windows that entered via createWindow: a
successful createWindow stores a window with its callback registered,
a window with a registered callback hands every event it emits to the
callback unchanged, and the manager forwards callback events to a
registered sink unchanged. Windows inserted by restoreWindowState have no
callback (see the counterexample), so their events are dropped. -/
theorem created_window_events_delivered (m : WindowManager) (title : String)
    (width height : Int) (type : WindowType) (w : WindowImpl) (e : WindowEvent)
    (hsink : m.callback_set = true) (ht : title ≠ "")
    (hw : 0 < width) (hh : 0 < height) :
    (findWindow (m.createWindow title width height type).state.windows
        (m.createWindow title width height type).ret).map
      WindowImpl.callback_set = some true ∧
    (w.callback_set = true → w.notifyEvents e = [e]) ∧
    m.fwd [e] = [e] := by
  have hd : ¬(width ≤ 0 ∨ height ≤ 0) := by omega
  refine ⟨?_, ?_, ?_⟩
  · unfold WindowManager.createWindow
    rw [if_neg hd, if_neg ht]
    dsimp only
    unfold WindowImpl.construct
    rw [if_neg hd, if_neg ht]
    dsimp only
    rw [setFocus_state_windows, findWindow_insertWindow_self]
    rfl
  · intro hcb
    unfold WindowImpl.notifyEvents
    rw [hcb]
    rfl
  · unfold WindowManager.fwd
    rw [hsink]
    rfl

/-- C3 witness: the amended delivery statement at a concrete creation. -/
theorem created_window_events_delivered_witness :
    (findWindow (WindowManager.init.setEventCallback.createWindow "A" 100 100
        WindowType.Normal).state.windows
        (WindowManager.init.setEventCallback.createWindow "A" 100 100
          WindowType.Normal).ret).map
      WindowImpl.callback_set = some true ∧
    (sampleWindow.setEventCallback.callback_set = true →
      sampleWindow.setEventCallback.notifyEvents
        { type := WindowEventType.Moved, window_id := 1 } =
        [{ type := WindowEventType.Moved, window_id := 1 }]) ∧
    WindowManager.init.setEventCallback.fwd
        [{ type := WindowEventType.Moved, window_id := 1 }] =
      [{ type := WindowEventType.Moved, window_id := 1 }] :=
  created_window_events_delivered WindowManager.init.setEventCallback "A"
    100 100 WindowType.Normal sampleWindow.setEventCallback
    { type := WindowEventType.Moved, window_id := 1 }
    rfl (by decide) (by decide) (by decide)

/-! ## Claim C4 -/

/-- C4, counterexample: minimize; maximize; restore does not return to the
pre-minimize geometry. Window 1 is created 800 by 600, maximized,
restored, then moved to (10, 20): its geometry — immediately before the
minimize under test — is (10, 20, 800, 600). After minimize; maximize;
restore the geometry is (0, 0, 800, 600): maximize entered from
Minimized skips the normal_geometry snapshot, so restore reinstates the
stale snapshot taken at the earlier maximize and the move is lost. -/
theorem minimize_maximize_restore_cex :
    (let m0 := (WindowManager.init.createWindow "A" 800 600
        WindowType.Normal).state
     let m3 := (((m0.maximizeWindow 1).state.restoreWindow 1).state.moveWindow
        1 10 20).state
     let m6 := (((m3.minimizeWindow 1).state.maximizeWindow
        1).state.restoreWindow 1).state
     (findWindow m3.windows 1).map WindowImpl.geometry = some
       { x := 10, y := 20, width := 800, height := 600, min_width := 100,
         min_height := 100, max_width := 4096, max_height := 4096 } ∧
     (findWindow m6.windows 1).map WindowImpl.geometry = some
       { x := 0, y := 0, width := 800, height := 600, min_width := 100,
         min_height := 100, max_width := 4096, max_height := 4096 }) := by
  decide

/-- C4, amended: from the Normal state, minimize; restore leaves geometry
unchanged (and returns to Normal), maximize; restore and a fullscreen
round-trip restore the pre-transition geometry, but minimize; maximize;
restore yields the normal_geometry snapshot held before the sequence —
maximize entered from Minimized does not take a snapshot — which
coincides with the pre-minimize geometry only when that snapshot happens
to be current. -/
theorem state_roundtrip_geometry (w : WindowImpl)
    (h : w.state = WindowState.Normal) :
    w.minimize.w.restore.w.geometry = w.geometry ∧
    w.minimize.w.restore.w.state = WindowState.Normal ∧
    w.maximize.w.restore.w.geometry = w.geometry ∧
    ((w.setFullscreen true).w.setFullscreen false).w.geometry = w.geometry ∧
    w.minimize.w.maximize.w.restore.w.geometry = w.normal_geometry := by
  simp [WindowImpl.minimize, WindowImpl.maximize, WindowImpl.restore,
    WindowImpl.setFullscreen, h]

/-- C4 witness: the round-trip facts at a concrete Normal-state window. -/
theorem state_roundtrip_geometry_witness :
    sampleWindow.minimize.w.restore.w.geometry = sampleWindow.geometry ∧
    sampleWindow.minimize.w.restore.w.state = WindowState.Normal ∧
    sampleWindow.maximize.w.restore.w.geometry = sampleWindow.geometry ∧
    ((sampleWindow.setFullscreen true).w.setFullscreen false).w.geometry =
      sampleWindow.geometry ∧
    sampleWindow.minimize.w.maximize.w.restore.w.geometry =
      sampleWindow.normal_geometry :=
  state_roundtrip_geometry sampleWindow rfl

/-! ## Claim C5 -/

/-- C5, counterexample: the bounds invariant does not survive every
mutation. setMinimumSize 5000 5000 on a default window (maxima 4096)
succeeds and clamps the size up to 5000, leaving width greater than
max_width; likewise maximize forces 1920 by 1080 even when the maxima
were lowered to 500 beforehand. -/
theorem setMinimumSize_exceeds_maximum_cex :
    (sampleWindow.setMinimumSize 5000 5000).2 = true ∧
    (sampleWindow.setMinimumSize 5000 5000).1.geometry.width = 5000 ∧
    (sampleWindow.setMinimumSize 5000 5000).1.geometry.max_width = 4096 ∧
    ¬((sampleWindow.setMinimumSize 5000 5000).1.geometry.width ≤
        (sampleWindow.setMinimumSize 5000 5000).1.geometry.max_width) ∧
    (let wm := ((sampleWindow.setMaximumSize 500 500).1.maximize).w
     wm.geometry.width = 1920 ∧ wm.geometry.max_width = 500 ∧
     ¬(wm.geometry.width ≤ wm.geometry.max_width)) := by
  decide

/-- C5, amended: the bounds invariant is enforced by resize alone: a
successful resize leaves min_width less-or-equal width less-or-equal
max_width and likewise for the height axis, and keeps the size positive
whenever the minima are positive. It is not an invariant of every
mutation: setMinimumSize can push the size above the maxima and
maximize/setFullscreen write 1920 by 1080 regardless of the maxima (see
the counterexample), and construction does not clamp the initial size
into the default 100..4096 bounds. -/
theorem resize_respects_bounds (w : WindowImpl) (width height : Int)
    (h : (w.resize width height).ret = true) :
    ((w.resize width height).w.geometry.min_width ≤
        (w.resize width height).w.geometry.width ∧
      (w.resize width height).w.geometry.width ≤
        (w.resize width height).w.geometry.max_width ∧
      (w.resize width height).w.geometry.min_height ≤
        (w.resize width height).w.geometry.height ∧
      (w.resize width height).w.geometry.height ≤
        (w.resize width height).w.geometry.max_height) ∧
    (0 < (w.resize width height).w.geometry.min_width →
      0 < (w.resize width height).w.geometry.width) ∧
    (0 < (w.resize width height).w.geometry.min_height →
      0 < (w.resize width height).w.geometry.height) := by
  have hc1 : ¬(width < w.geometry.min_width ∨ height < w.geometry.min_height) := by
    intro hc
    unfold WindowImpl.resize at h
    rw [if_pos hc] at h
    exact Bool.false_ne_true h
  have hc2 : ¬(width > w.geometry.max_width ∨ height > w.geometry.max_height) := by
    intro hc
    unfold WindowImpl.resize at h
    rw [if_neg hc1, if_pos hc] at h
    exact Bool.false_ne_true h
  have hval : w.resize width height =
      ⟨{ w with geometry :=
          { w.geometry with width := width, height := height } },
        ({ w with geometry :=
          { w.geometry with width := width, height := height } }).notifyEvents
          (EventUtils.createWindowResizedEvent w.id width height
            w.geometry.width w.geometry.height), true⟩ := by
    unfold WindowImpl.resize
    rw [if_neg hc1, if_neg hc2]
  rw [hval]
  dsimp only
  push_neg at hc1 hc2
  exact ⟨⟨by omega, by omega, by omega, by omega⟩, by omega, by omega⟩

/-- C5 witness: the resize bounds at a concrete successful resize. -/
theorem resize_respects_bounds_witness :
    ((sampleWindow.resize 400 300).w.geometry.min_width ≤
        (sampleWindow.resize 400 300).w.geometry.width ∧
      (sampleWindow.resize 400 300).w.geometry.width ≤
        (sampleWindow.resize 400 300).w.geometry.max_width ∧
      (sampleWindow.resize 400 300).w.geometry.min_height ≤
        (sampleWindow.resize 400 300).w.geometry.height ∧
      (sampleWindow.resize 400 300).w.geometry.height ≤
        (sampleWindow.resize 400 300).w.geometry.max_height) ∧
    (0 < (sampleWindow.resize 400 300).w.geometry.min_width →
      0 < (sampleWindow.resize 400 300).w.geometry.width) ∧
    (0 < (sampleWindow.resize 400 300).w.geometry.min_height →
      0 < (sampleWindow.resize 400 300).w.geometry.height) :=
  resize_respects_bounds sampleWindow 400 300 (by decide)

/-! ## Claim C6 -/

/-- C6, counterexample: the already-focused early return precedes the
existence check, so setFocus succeeds on an id that names no live
window: on a fresh manager (focused_window_id is the -1 sentinel),
setFocus (-1) returns true even though no window -1 exists, where the
claim demands failure for every id that is not currently live. -/
theorem setFocus_unknown_id_success_cex :
    (WindowManager.init.setFocus (-1)).ret = true ∧
    findWindow WindowManager.init.windows (-1) = none := by
  decide

/-- C6, amended: setFocus fails exactly for unknown ids that differ from
the current focused_window_id; an id equal to the current
focused_window_id is a no-op success even when it names no live window
(see the counterexample). On an actual focus switch to a live window,
FocusLost for the previous live holder is emitted strictly before
FocusGained for the new holder (no FocusLost when there was no previous
holder). -/
theorem setFocus_cases (m : WindowManager) (id : Int) (w : WindowImpl)
    (hsink : m.callback_set = true) :
    (id = m.focused_window_id → m.setFocus id = ⟨m, [], true⟩) ∧
    (id ≠ m.focused_window_id → findWindow m.windows id = none →
      m.setFocus id = ⟨m, [], false⟩) ∧
    (id ≠ m.focused_window_id → findWindow m.windows id = some w →
      m.focused_window_id = -1 →
      m.setFocus id = ⟨{ m with focused_window_id := id },
        [{ type := WindowEventType.FocusGained, window_id := id }], true⟩) ∧
    (id ≠ m.focused_window_id → findWindow m.windows id = some w →
      m.focused_window_id ≠ -1 →
      (findWindow m.windows m.focused_window_id).isSome = true →
      m.setFocus id = ⟨{ m with focused_window_id := id },
        [{ type := WindowEventType.FocusLost,
           window_id := m.focused_window_id },
         { type := WindowEventType.FocusGained, window_id := id }], true⟩) := by
  refine ⟨?_, ?_, ?_, ?_⟩
  · intro h1
    unfold WindowManager.setFocus
    rw [if_pos h1]
  · intro h1 h2
    unfold WindowManager.setFocus
    rw [if_neg h1, h2]
  · intro h1 h2 h3
    unfold WindowManager.setFocus
    rw [if_neg h1, h2]
    simp [WindowManager.notify, hsink, h3]
  · intro h1 h2 h3 h4
    unfold WindowManager.setFocus
    rw [if_neg h1, h2]
    simp [WindowManager.notify, hsink, h3, h4]

/-- C6 witness: the case analysis at the concrete two-window manager with
focus on window 2, switching to window 1. -/
theorem setFocus_cases_witness :
    ((1 : Int) = sampleManager.focused_window_id →
      sampleManager.setFocus 1 = ⟨sampleManager, [], true⟩) ∧
    ((1 : Int) ≠ sampleManager.focused_window_id →
      findWindow sampleManager.windows 1 = none →
      sampleManager.setFocus 1 = ⟨sampleManager, [], false⟩) ∧
    ((1 : Int) ≠ sampleManager.focused_window_id →
      findWindow sampleManager.windows 1 =
        some ((findWindow sampleManager.windows 1).getD default) →
      sampleManager.focused_window_id = -1 →
      sampleManager.setFocus 1 = ⟨{ sampleManager with focused_window_id := 1 },
        [{ type := WindowEventType.FocusGained, window_id := 1 }], true⟩) ∧
    ((1 : Int) ≠ sampleManager.focused_window_id →
      findWindow sampleManager.windows 1 =
        some ((findWindow sampleManager.windows 1).getD default) →
      sampleManager.focused_window_id ≠ -1 →
      (findWindow sampleManager.windows
        sampleManager.focused_window_id).isSome = true →
      sampleManager.setFocus 1 = ⟨{ sampleManager with focused_window_id := 1 },
        [{ type := WindowEventType.FocusLost,
           window_id := sampleManager.focused_window_id },
         { type := WindowEventType.FocusGained, window_id := 1 }], true⟩) :=
  setFocus_cases sampleManager 1
    ((findWindow sampleManager.windows 1).getD default) (by decide)

/-! ## Claim C7 -/

/-- C7: createWindow with an empty title or a non-positive dimension
reports the sentinel identity -1 (the thrown invalid_argument is caught
inside the call, so nothing escapes to the caller), registers no window,
emits no event, and leaves the whole manager state — in particular
next_window_id — unchanged, so the next successful create is assigned
the identity the failing call would have used. -/
theorem createWindow_validation_failure (m : WindowManager) (title : String)
    (width height : Int) (type : WindowType) (t2 : String) (w2 h2 : Int)
    (ty2 : WindowType)
    (hbad : title = "" ∨ width ≤ 0 ∨ height ≤ 0) :
    (m.createWindow title width height type).ret = -1 ∧
    (m.createWindow title width height type).state = m ∧
    (m.createWindow title width height type).events = [] ∧
    ((m.createWindow title width height type).state.createWindow
        t2 w2 h2 ty2).ret = (m.createWindow t2 w2 h2 ty2).ret := by
  have hfail : m.createWindow title width height type = ⟨m, [], -1⟩ := by
    unfold WindowManager.createWindow
    split
    · rfl
    · split
      · rfl
      · rename_i hd hts
        rcases hbad with hb | hb | hb
        · exact absurd hb hts
        · exact absurd (Or.inl hb) hd
        · exact absurd (Or.inr hb) hd
  rw [hfail]
  exact ⟨rfl, rfl, rfl, rfl⟩

/-- C7 witness: the failing create at a concrete empty title. -/
theorem createWindow_validation_failure_witness :
    (WindowManager.init.createWindow "" 100 100 WindowType.Normal).ret = -1 ∧
    (WindowManager.init.createWindow "" 100 100 WindowType.Normal).state =
      WindowManager.init ∧
    (WindowManager.init.createWindow "" 100 100 WindowType.Normal).events = [] ∧
    ((WindowManager.init.createWindow "" 100 100
        WindowType.Normal).state.createWindow "T" 100 100
        WindowType.Normal).ret =
      (WindowManager.init.createWindow "T" 100 100 WindowType.Normal).ret :=
  createWindow_validation_failure WindowManager.init "" 100 100
    WindowType.Normal "T" 100 100 WindowType.Normal (Or.inl rfl)

/-! ## Claim C8 -/

/-- C8: closing the focused window re-establishes the focus invariant
within the same call: the call succeeds, the closed id leaves the
collection, and if no window remains focused_window_id becomes the -1
sentinel with the window count at 0, while if at least one window
remains the new focused_window_id names a live window different from the
closed one and (with a sink registered) a FocusGained event for it is
among the delivered events. -/
theorem closeWindow_focused_refocuses (m : WindowManager) (id : Int)
    (hfind : (findWindow m.windows id).isSome = true)
    (hfoc : m.focused_window_id = id) :
    (m.closeWindow id).ret = true ∧
    (m.closeWindow id).state.windows = eraseWindow m.windows id ∧
    (eraseWindow m.windows id = [] →
      (m.closeWindow id).state.focused_window_id = -1 ∧
      (m.closeWindow id).state.getWindowCount = 0) ∧
    (eraseWindow m.windows id ≠ [] →
      (m.closeWindow id).state.focused_window_id ≠ id ∧
      (findWindow (m.closeWindow id).state.windows
        (m.closeWindow id).state.focused_window_id).isSome = true ∧
      (m.callback_set = true →
        { type := WindowEventType.FocusGained,
          window_id := (m.closeWindow id).state.focused_window_id }
          ∈ (m.closeWindow id).events)) := by
  obtain ⟨w, hw⟩ := Option.isSome_iff_exists.mp hfind
  unfold WindowManager.closeWindow
  rw [hw]
  dsimp only
  rw [if_pos hfoc]
  unfold WindowManager.setFocusToNextWindow
  rcases hE : eraseWindow m.windows id with _ | ⟨⟨k, v⟩, t⟩
  · dsimp only
    exact ⟨rfl, rfl, fun _ => ⟨rfl, rfl⟩, fun hne => absurd rfl hne⟩
  · dsimp only
    have hk : k ≠ id := by
      have hmem : (k, v) ∈ eraseWindow m.windows id := by
        rw [hE]
        exact List.mem_cons_self _ _
      have hp := List.of_mem_filter hmem
      simpa using hp
    refine ⟨rfl, rfl, fun h0 => absurd h0 (by simp), fun _ => ⟨hk, ?_, ?_⟩⟩
    · rw [findWindow_head]
      rfl
    · intro hsink
      simp [WindowManager.notify, hsink]

/-- C8 witness: closing the focused window 2 of the two-window manager. -/
theorem closeWindow_focused_refocuses_witness :
    (sampleManager.closeWindow 2).ret = true ∧
    (sampleManager.closeWindow 2).state.windows =
      eraseWindow sampleManager.windows 2 ∧
    (eraseWindow sampleManager.windows 2 = [] →
      (sampleManager.closeWindow 2).state.focused_window_id = -1 ∧
      (sampleManager.closeWindow 2).state.getWindowCount = 0) ∧
    (eraseWindow sampleManager.windows 2 ≠ [] →
      (sampleManager.closeWindow 2).state.focused_window_id ≠ 2 ∧
      (findWindow (sampleManager.closeWindow 2).state.windows
        (sampleManager.closeWindow 2).state.focused_window_id).isSome = true ∧
      (sampleManager.callback_set = true →
        { type := WindowEventType.FocusGained,
          window_id := (sampleManager.closeWindow 2).state.focused_window_id }
          ∈ (sampleManager.closeWindow 2).events)) :=
  closeWindow_focused_refocuses sampleManager 2 (by decide) (by decide)

/-! ## Claim C10 -/

/-- C10: the resizable and movable capability flags never gate geometry
operations. For an arbitrary window — any category defaults, any flag
values — move always succeeds and writes the position, and resize with
dimensions inside the current bounds always succeeds and writes the
size; explicitly flipping the flags off via setMovable false and
setResizable false changes nothing about this. -/
theorem capability_flags_never_gate (w : WindowImpl) (x y nw nh : Int)
    (h1 : w.geometry.min_width ≤ nw) (h2 : nw ≤ w.geometry.max_width)
    (h3 : w.geometry.min_height ≤ nh) (h4 : nh ≤ w.geometry.max_height) :
    (w.move x y).ret = true ∧
    (w.move x y).w.geometry.x = x ∧
    (w.move x y).w.geometry.y = y ∧
    ((w.setMovable false).1.move x y).ret = true ∧
    ((w.setMovable false).1.move x y).w.geometry.x = x ∧
    (w.resize nw nh).ret = true ∧
    (w.resize nw nh).w.geometry.width = nw ∧
    (w.resize nw nh).w.geometry.height = nh ∧
    ((w.setResizable false).1.resize nw nh).ret = true ∧
    ((w.setResizable false).1.resize nw nh).w.geometry.width = nw := by
  have hc1 : ¬(nw < w.geometry.min_width ∨ nh < w.geometry.min_height) := by
    omega
  have hc2 : ¬(nw > w.geometry.max_width ∨ nh > w.geometry.max_height) := by
    omega
  refine ⟨rfl, rfl, rfl, rfl, rfl, ?_, ?_, ?_, ?_, ?_⟩
  all_goals
    simp [WindowImpl.resize, WindowImpl.setResizable, hc1, hc2]

/-- C10 witness: the flag-independence facts at a concrete window and a
concrete in-bounds resize. -/
theorem capability_flags_never_gate_witness :
    (sampleWindow.move 7 9).ret = true ∧
    (sampleWindow.move 7 9).w.geometry.x = 7 ∧
    (sampleWindow.move 7 9).w.geometry.y = 9 ∧
    ((sampleWindow.setMovable false).1.move 7 9).ret = true ∧
    ((sampleWindow.setMovable false).1.move 7 9).w.geometry.x = 7 ∧
    (sampleWindow.resize 400 300).ret = true ∧
    (sampleWindow.resize 400 300).w.geometry.width = 400 ∧
    (sampleWindow.resize 400 300).w.geometry.height = 300 ∧
    ((sampleWindow.setResizable false).1.resize 400 300).ret = true ∧
    ((sampleWindow.setResizable false).1.resize 400 300).w.geometry.width = 400 :=
  capability_flags_never_gate sampleWindow 7 9 400 300 (by decide) (by decide)
    (by decide) (by decide)

/-! ## Claim C9 -/

/-- C9, counterexample: save-then-restore is not the identity on the
geometry/state pairs. Window 1 is created 800 by 600, maximized (geometry
becomes 0, 0, 1920, 1080) and then moved to (5, 5) — all through the
manager interface, so (5, 5, 1920, 1080, Maximized) is a reachable pair.
Restoring the saved document replays maximize, which snaps the geometry
back to (0, 0, 1920, 1080): the position is lost although the call
reports success. -/
theorem save_restore_moved_maximized_cex :
    (let m := (((WindowManager.init.createWindow "A" 800 600
        WindowType.Normal).state.maximizeWindow 1).state.moveWindow 1 5 5).state
     let r := m.restoreWindowState (some m.saveWindowState)
     r.2 = true ∧
     (findWindow m.windows 1).map (fun w => (w.geometry.x, w.geometry.y,
       w.geometry.width, w.geometry.height, w.state.toInt)) =
       some (5, 5, 1920, 1080, 2) ∧
     (findWindow r.1.windows 1).map (fun w => (w.geometry.x, w.geometry.y,
       w.geometry.width, w.geometry.height, w.state.toInt)) =
       some (0, 0, 1920, 1080, 2)) := by
  decide

/-- The components of a stored window that the round-trip claim compares:
title, every geometry field, and state. -/
def windowView (w : WindowImpl) :
    String × Int × Int × Int × Int × Int × Int × Int × Int × WindowState :=
  (w.title, w.geometry.x, w.geometry.y, w.geometry.width, w.geometry.height,
   w.geometry.min_width, w.geometry.min_height, w.geometry.max_width,
   w.geometry.max_height, w.state)

/-- The canonical geometry that maximize and setFullscreen write. -/
def maximizedGeometry : WindowGeometry :=
  { x := 0, y := 0, width := 1920, height := 1080, min_width := 100,
    min_height := 100, max_width := 4096, max_height := 4096 }

/-- Conditions under which one persisted window record reconstructs
faithfully: nonempty title, positive size (so the replayed constructor
succeeds), the default constraint bounds (the manager interface never
exposes setMinimumSize or setMaximumSize, so stored windows always carry
them), a state other than Hidden (nothing ever assigns Hidden), and, for
Maximized and Fullscreen, the canonical geometry those transitions wrote
(violated by moving or resizing the window afterwards — see the
counterexample). -/
def GoodEntry (p : Int × WindowImpl) : Prop :=
  p.2.title ≠ "" ∧ 0 < p.2.geometry.width ∧ 0 < p.2.geometry.height ∧
  p.2.geometry.min_width = 100 ∧ p.2.geometry.min_height = 100 ∧
  p.2.geometry.max_width = 4096 ∧ p.2.geometry.max_height = 4096 ∧
  p.2.state ≠ WindowState.Hidden ∧
  ((p.2.state = WindowState.Maximized ∨ p.2.state = WindowState.Fullscreen) →
    p.2.geometry = maximizedGeometry)

instance (p : Int × WindowImpl) : Decidable (GoodEntry p) := by
  unfold GoodEntry
  infer_instance

/-- The window that one loop iteration of restoreWindowState rebuilds
from the record saved for a window w stored under the given id. -/
def restoredWin (id : Int) (w : WindowImpl) : WindowImpl :=
  match WindowImpl.construct id w.title w.geometry.width w.geometry.height
      WindowType.Normal with
  | .error _ => default
  | .ok w0 =>
    let w1 := (w0.move w.geometry.x w.geometry.y).w
    match w.state with
    | .Minimized => w1.minimize.w
    | .Maximized => w1.maximize.w
    | .Fullscreen => (w1.setFullscreen true).w
    | _ => w1

theorem ofInt_toInt (s : WindowState) : WindowState.ofInt s.toInt = s := by
  cases s <;> rfl

theorem restoreOne_saveWindowObj (mcur : WindowManager) (id : Int)
    (w : WindowImpl) (hg : GoodEntry (id, w)) :
    restoreOne mcur (saveWindowObj id w) =
      .ok { mcur with
        windows := insertWindow mcur.windows id (restoredWin id w)
        next_window_id := max mcur.next_window_id (id + 1) } := by
  obtain ⟨ht0, hw0, hh0, -, -, -, -, -, -⟩ := hg
  have ht : ¬(w.title = "") := ht0
  have hw : 0 < w.geometry.width := hw0
  have hh : 0 < w.geometry.height := hh0
  have hparse : parseWindowObj (saveWindowObj id w) =
      .ok ⟨id, w.title, w.geometry.x, w.geometry.y, w.geometry.width,
        w.geometry.height, w.state.toInt⟩ := rfl
  have hd : ¬(w.geometry.width ≤ 0 ∨ w.geometry.height ≤ 0) := by omega
  unfold restoreOne restoredWin
  rw [hparse]
  dsimp only
  unfold WindowImpl.construct
  rw [if_neg hd, if_neg ht]
  dsimp only
  rw [ofInt_toInt]

theorem insertWindow_append (ws : List (Int × WindowImpl)) (id : Int)
    (w : WindowImpl) (h : ws.all (fun p => p.1 != id) = true) :
    insertWindow ws id w = ws ++ [(id, w)] := by
  unfold insertWindow
  have hna : ¬(ws.any (fun p => p.1 == id) = true) := by
    intro hc
    obtain ⟨p, hp, hpe⟩ := List.any_eq_true.mp hc
    have hne := List.all_eq_true.mp h p hp
    simp at hne hpe
    exact hne hpe
  rw [if_neg hna]

theorem restoredWin_view (id : Int) (w : WindowImpl)
    (hg : GoodEntry (id, w)) : windowView (restoredWin id w) = windowView w := by
  obtain ⟨ht0, hw0, hh0, hmnw0, hmnh0, hmxw0, hmxh0, hhid0, hmax0⟩ := hg
  have ht : ¬(w.title = "") := ht0
  have hw : 0 < w.geometry.width := hw0
  have hh : 0 < w.geometry.height := hh0
  have hmnw : w.geometry.min_width = 100 := hmnw0
  have hmnh : w.geometry.min_height = 100 := hmnh0
  have hmxw : w.geometry.max_width = 4096 := hmxw0
  have hmxh : w.geometry.max_height = 4096 := hmxh0
  have hhid : w.state ≠ WindowState.Hidden := hhid0
  have hmax : (w.state = WindowState.Maximized ∨
      w.state = WindowState.Fullscreen) → w.geometry = maximizedGeometry :=
    hmax0
  have hd : ¬(w.geometry.width ≤ 0 ∨ w.geometry.height ≤ 0) := by omega
  unfold restoredWin WindowImpl.construct
  rw [if_neg hd, if_neg ht]
  dsimp only
  cases hs : w.state with
  | Normal =>
    simp [windowView, WindowImpl.move, hs, hmnw, hmnh, hmxw, hmxh]
  | Minimized =>
    simp [windowView, WindowImpl.move, WindowImpl.minimize, hs, hmnw, hmnh,
      hmxw, hmxh]
  | Maximized =>
    have hcg : w.geometry = maximizedGeometry := hmax (Or.inl hs)
    simp [windowView, WindowImpl.move, WindowImpl.maximize, hs, hcg,
      maximizedGeometry]
  | Fullscreen =>
    have hcg : w.geometry = maximizedGeometry := hmax (Or.inr hs)
    simp [windowView, WindowImpl.move, WindowImpl.setFullscreen, hs, hcg,
      maximizedGeometry]
  | Hidden => exact absurd hs hhid

theorem findWindow_map_restored (ws : List (Int × WindowImpl)) (id : Int)
    (hg : ∀ p ∈ ws, GoodEntry p) :
    (findWindow (ws.map (fun p => (p.1, restoredWin p.1 p.2))) id).map
        windowView = (findWindow ws id).map windowView := by
  induction ws with
  | nil => rfl
  | cons p t ih =>
    by_cases hk : p.1 = id
    · rw [List.map_cons, findWindow_cons_pos (p.1, restoredWin p.1 p.2) _ _ hk,
        findWindow_cons_pos _ _ _ hk]
      have hv := restoredWin_view p.1 p.2 (hg p (List.mem_cons_self _ _))
      simpa using hv
    · rw [List.map_cons, findWindow_cons_neg (p.1, restoredWin p.1 p.2) _ _ hk,
        findWindow_cons_neg _ _ _ hk]
      exact ih (fun q hq => hg q (List.mem_cons_of_mem _ hq))

theorem restoreLoop_saved (ws : List (Int × WindowImpl)) :
    ∀ macc : WindowManager,
      (∀ p ∈ ws, GoodEntry p) →
      (∀ p ∈ ws, macc.windows.all (fun q => q.1 != p.1) = true) →
      (ws.map Prod.fst).Nodup →
      ∃ nid, restoreLoop macc (ws.map (fun p => saveWindowObj p.1 p.2)) =
        .ok { macc with
          windows := macc.windows ++
            ws.map (fun p => (p.1, restoredWin p.1 p.2))
          next_window_id := nid } := by
  induction ws with
  | nil =>
    intro macc _ _ _
    refine ⟨macc.next_window_id, ?_⟩
    simp [restoreLoop]
  | cons p t ih =>
    intro macc hg hdisj hnodup
    have hstep := restoreOne_saveWindowObj macc p.1 p.2
      (hg p (List.mem_cons_self _ _))
    obtain ⟨nid, hloop⟩ := ih
      { macc with
        windows := macc.windows ++ [(p.1, restoredWin p.1 p.2)]
        next_window_id := max macc.next_window_id (p.1 + 1) }
      (fun q hq => hg q (List.mem_cons_of_mem _ hq))
      (fun q hq => by
        rw [List.all_append]
        have h1 := hdisj q (List.mem_cons_of_mem _ hq)
        have h2 : p.1 ≠ q.1 := by
          intro hc
          exact (List.nodup_cons.mp hnodup).1
            (by rw [hc]; exact List.mem_map_of_mem Prod.fst hq)
        simp [h1, h2])
      (List.nodup_cons.mp hnodup).2
    refine ⟨nid, ?_⟩
    rw [List.map_cons]
    simp only [restoreLoop]
    rw [hstep, insertWindow_append _ _ _ (hdisj p (List.mem_cons_self _ _))]
    dsimp only
    rw [hloop]
    simp [List.append_assoc]

/-- C9, amended: save-then-restore reports success and preserves each
identity's title, geometry and state provided every stored window has a
nonempty title, a positive size, the default constraint bounds (the only
ones reachable through the manager interface), a state other than the
never-assigned Hidden, and — for Maximized or Fullscreen windows — the
canonical geometry (0, 0, 1920, 1080) those transitions wrote. A
Maximized or Fullscreen window that was moved or resized afterwards
violates the last condition and does not round-trip (see the
counterexample); the window category is degraded to Normal as the claim
already accepts. -/
theorem save_restore_roundtrip (m : WindowManager) (id : Int)
    (hgood : ∀ p ∈ m.windows, GoodEntry p)
    (hkeys : (m.windows.map Prod.fst).Nodup) :
    (m.restoreWindowState (some m.saveWindowState)).2 = true ∧
    (findWindow (m.restoreWindowState (some m.saveWindowState)).1.windows
        id).map windowView = (findWindow m.windows id).map windowView := by
  obtain ⟨nid, hloop⟩ := restoreLoop_saved m.windows { m with windows := [] }
    hgood (fun p hp => rfl) hkeys
  have hget : (m.saveWindowState).get "windows" =
      .ok (.arr (m.windows.map (fun p => saveWindowObj p.1 p.2))) := rfl
  have hfoc : ((m.saveWindowState).get "focused_window").bind Json.asInt =
      .ok m.focused_window_id := rfl
  unfold WindowManager.restoreWindowState
  dsimp only
  rw [hget]
  dsimp only [Json.iterElems]
  rw [hloop]
  dsimp only
  rw [hfoc]
  refine ⟨rfl, ?_⟩
  dsimp only
  rw [List.nil_append, findWindow_map_restored m.windows id hgood]

/-- C9 witness: the round-trip at the concrete two-window manager. -/
theorem save_restore_roundtrip_witness :
    (sampleManager.restoreWindowState
        (some sampleManager.saveWindowState)).2 = true ∧
    (findWindow (sampleManager.restoreWindowState
        (some sampleManager.saveWindowState)).1.windows 1).map windowView =
      (findWindow sampleManager.windows 1).map windowView :=
  save_restore_roundtrip sampleManager 1 (by decide) (by decide)

end CloudFlow.UI
